import Mathlib

/-!
# Verification of the OpenDistro detector resource

A shallow embedding of `es/resource_elasticsearch_opendistro_detector.go`:
the CRUD lifecycle callbacks of the `elasticsearch_opendistro_detector`
Terraform resource, the `DetectorResponse` envelope decoding, and the
path/client plumbing they use.

Modelling conventions:
* JSON documents are modelled as values of the inductive type `Json`.
  A JSON *number* is modelled as an `Int` (the detector bodies are opaque to
  the provider, and the only numeric field the code interprets, `_version`,
  is integer-valued).
* Go's `json.Marshal` of a decoded `map[string]interface{}` emits a compact
  encoding with the object keys sorted; at the value level this is
  `serialize (canonJson v)`.  `structure.NormalizeJsonString` (decode, then
  re-`Marshal`) applied to such an output is the identity, so the composite
  `NormalizeJsonString(string(json.Marshal(v)))` that `Read` performs is
  embedded as `marshalNormalized v = serialize (canonJson v)`.
* The three client generations of the provider (`elastic7`, `elastic6`, and
  everything older, e.g. the `elastic5` client of the acceptance test) are a
  three-valued type; the versioned `PerformRequest` calls are an abstract
  transport function `perform : HttpRequest → Except GoError Json` carried by
  the provider configuration, and the embedded operations additionally return
  the list of HTTP requests they issued.
* Errors are `GoError`; an `elastic` error remembers which client library
  produced it, which is what the `elastic6.IsNotFound` / `elastic7.IsNotFound`
  classifiers inspect (each returns true only for its own library's error
  type with HTTP status 404).
-/

/-- A JSON value, as decoded by Go's `encoding/json` into `interface{}`:
object fields are kept as an association list (Go maps lose the textual
order; `canonJson` below re-establishes Go's canonical sorted order). -/
inductive Json where
  | null
  | bool (b : Bool)
  | num (n : Int)
  | str (s : String)
  | arr (elems : List Json)
  | obj (fields : List (String × Json))
deriving Repr

/-! ## The detector normalizer

`normalizeDetector` is called by the Get and Post helpers
(`normalizeDetector(response.Detector)`) but its definition is not part of
the provided sources, so it is modelled from the spec below. -/

/-- Modelled from the spec: the definition of `normalizeDetector` is missing
from the provided sources (only its call sites in the Get and Post helpers
appear).  The spec describes it as deep-walking a decoded detector JSON
object and removing the version-dependent default fields that the server
injects — the boolean defaults and boost weights the Create callback's
comment names (`adjust_pure_negative`, `boost`).  These are the object keys
the modelled normalizer strips at every nesting level. -/
def detectorDefaultKeys : List String := ["adjust_pure_negative", "boost"]

/-- `true` on the server-injected default keys that the normalizer strips. -/
def isDefaultKey (k : String) : Bool := detectorDefaultKeys.contains k

mutual

/-- Modelled from the spec (see `detectorDefaultKeys`): deep-walk a decoded
detector object and drop every field whose key is a server-injected default,
recursing into nested objects and arrays. -/
def normalizeDetector : Json → Json
  | .obj fs => .obj (normalizeFields fs)
  | .arr xs => .arr (normalizeList xs)
  | j => j

def normalizeList : List Json → List Json
  | [] => []
  | x :: xs => normalizeDetector x :: normalizeList xs

def normalizeFields : List (String × Json) → List (String × Json)
  | [] => []
  | (k, v) :: fs =>
      if isDefaultKey k then normalizeFields fs
      else (k, normalizeDetector v) :: normalizeFields fs

end

/-! ## Canonical (Go `json.Marshal`) encoding

Go's `json.Marshal` of a decoded `map[string]interface{}` emits a compact
encoding with object keys in sorted order.  `canonJson` performs the key
sorting at the value level and `serialize` the compact printing, so
`serialize (canonJson v)` is the string `json.Marshal` produces for the
decoded value `v`, and `structure.NormalizeJsonString` of that string is
that string itself. -/

/-- Insert a field into a key-sorted field list (insertion sort step). -/
def insertField (p : String × Json) : List (String × Json) → List (String × Json)
  | [] => [p]
  | q :: qs => if q.1 < p.1 then q :: insertField p qs else p :: q :: qs

/-- Sort a field list by key, as Go's `json.Marshal` does for maps. -/
def sortFields : List (String × Json) → List (String × Json)
  | [] => []
  | p :: ps => insertField p (sortFields ps)

mutual

/-- Recursively sort every object's fields by key: the value-level effect of
decoding into Go maps and re-marshalling. -/
def canonJson : Json → Json
  | .obj fs => .obj (sortFields (canonFields fs))
  | .arr xs => .arr (canonList xs)
  | j => j

def canonList : List Json → List Json
  | [] => []
  | x :: xs => canonJson x :: canonList xs

def canonFields : List (String × Json) → List (String × Json)
  | [] => []
  | (k, v) :: fs => (k, canonJson v) :: canonFields fs

end

/-- Quote a JSON string literal (Go escapes quotes and backslashes; the
further control/HTML escaping Go applies is irrelevant to every property
proved here and elided). -/
def quoteString (s : String) : String :=
  "\"" ++ String.join (s.data.map fun c =>
    if c = '"' then "\\\"" else if c = '\\' then "\\\\" else String.singleton c) ++ "\""

mutual

/-- Compact JSON printing, as Go's `json.Marshal` emits it. -/
def serialize : Json → String
  | .null => "null"
  | .bool true => "true"
  | .bool false => "false"
  | .num n => toString n
  | .str s => quoteString s
  | .arr xs => "[" ++ serializeList xs ++ "]"
  | .obj fs => "\x7b" ++ serializeFields fs ++ "\x7d"

def serializeList : List Json → String
  | [] => ""
  | [x] => serialize x
  | x :: xs => serialize x ++ "," ++ serializeList xs

def serializeFields : List (String × Json) → String
  | [] => ""
  | [(k, v)] => quoteString k ++ ":" ++ serialize v
  | (k, v) :: fs => quoteString k ++ ":" ++ serialize v ++ "," ++ serializeFields fs

end

/-- The embedding of the composite
`structure.NormalizeJsonString(string(json.Marshal(v)))` that the Read
callback applies to the decoded detector: marshalling a decoded value sorts
the object keys and prints compactly, and re-normalizing that canonical
compact string is the identity. -/
def marshalNormalized (v : Json) : String := serialize (canonJson v)

/-! ## Clients, errors and transport -/

/-- The three client generations the provider can select: the `elastic7` and
`elastic6` libraries, and everything older (e.g. the `elastic5` client the
acceptance test checks for), on which the detector resource is not
implemented. -/
inductive ClientGen where
  | v7
  | v6
  | older
deriving DecidableEq, Repr

/-- A Go `error` value as the detector code observes it: either a typed
error of one of the elastic client libraries (carrying the HTTP status the
`IsNotFound` classifiers inspect) or a plain error with a message. -/
inductive GoError where
  | elastic (gen : ClientGen) (status : Nat) (msg : String)
  | simple (msg : String)
deriving DecidableEq, Repr

/-- The fixed error every operation returns on the oldest client generation:
`errors.New("Detector resource not implemented prior to Elastic v6")`. -/
def notImplementedError : GoError :=
  .simple "Detector resource not implemented prior to Elastic v6"

/-- `elastic6.IsNotFound`: true exactly on the v6 library's typed error with
HTTP status 404. -/
def elastic6IsNotFound : GoError → Bool
  | .elastic .v6 404 _ => true
  | _ => false

/-- `elastic7.IsNotFound`: true exactly on the v7 library's typed error with
HTTP status 404. -/
def elastic7IsNotFound : GoError → Bool
  | .elastic .v7 404 _ => true
  | _ => false

/-- The "not found" classifier of a given client generation (the oldest
generation has none: its operations never reach a classifier). -/
def classifiesNotFound (gen : ClientGen) (e : GoError) : Bool :=
  match gen with
  | .v6 => elastic6IsNotFound e
  | .v7 => elastic7IsNotFound e
  | .older => false

inductive HttpMethod where
  | get
  | post
  | put
  | delete
deriving DecidableEq, Repr

/-- An HTTP request as handed to the versioned `PerformRequest` calls. -/
structure HttpRequest where
  method : HttpMethod
  path : String
  body : Option String
deriving DecidableEq, Repr

/-- The provider configuration as the detector operations use it: the result
of `getClient` (a versioned client handle or an error) and the transport
behind the selected client's `PerformRequest` (the response body modelled as
a decoded JSON value). -/
structure ProviderConf where
  client : Except GoError ClientGen
  perform : HttpRequest → Except GoError Json

/-- The local Terraform state of one detector resource: the identifier
(`d.Id()`) and the `body` attribute. -/
structure ResourceData where
  id : String
  body : String
deriving DecidableEq, Repr

/-- The collection path the Create callback POSTs to. -/
def detectorCollectionPath : String := "/_opendistro/_anomaly_detection/detectors/"

/-- The item path built by `uritemplates.Expand` on the fixed template
`/_opendistro/_anomaly_detection/detectors/{id}` (the template is constant
and well-formed, so expansion never fails; percent-encoding of the
identifier is elided — no property here inspects an identifier inside a
path). -/
def detectorItemPath (detectorID : String) : String :=
  "/_opendistro/_anomaly_detection/detectors/" ++ detectorID

/-! ## The `DetectorResponse` envelope -/

/-- The envelope the server returns around a detector, as the Go struct
`DetectorResponse` with tags `_version`, `_id` and `Detector` decodes it;
field defaults are Go's zero values (`detector := .null` models the nil
map). -/
structure DetectorResponse where
  version : Int := 0
  id : String := ""
  detector : Json := .null
deriving Repr

/-- Go `encoding/json` key matching: the struct tags here collide with no
other tag case-insensitively, so a key matches a tag iff they agree up to
ASCII case (which is how the response's lowercase `detector` key lands in
the field tagged `Detector`). -/
def keyMatches (key tag : String) : Bool :=
  key.data.map Char.toLower == tag.data.map Char.toLower

/-- Decode one object member into the envelope, as Go's `json.Unmarshal`
does: a key matching no tag is ignored, a JSON null leaves the field at its
zero value, a value of the wrong type is a decode error. -/
def assignEnvelopeField (acc : DetectorResponse) (key : String) (v : Json) :
    Except String DetectorResponse :=
  if keyMatches key "_version" then
    match v with
    | .num n => .ok { acc with version := n }
    | .null => .ok acc
    | _ => .error ("cannot unmarshal " ++ serialize v ++ " into Go value of type int")
  else if keyMatches key "_id" then
    match v with
    | .str s => .ok { acc with id := s }
    | .null => .ok acc
    | _ => .error ("cannot unmarshal " ++ serialize v ++ " into Go value of type string")
  else if keyMatches key "Detector" then
    match v with
    | .obj fs => .ok (
        { acc with detector := .obj fs })
    | .null => .ok acc
    | _ => .error ("cannot unmarshal " ++ serialize v ++ " into Go value of type map")
  else
    .ok acc

/-- Fold the object members into the envelope, stopping at the first decode
error (the error Go's `Unmarshal` reports). -/
def decodeEnvelopeFields (acc : DetectorResponse) :
    List (String × Json) → Except String DetectorResponse
  | [] => .ok acc
  | (k, v) :: fs =>
      match assignEnvelopeField acc k v with
      | .error e => .error e
      | .ok acc' => decodeEnvelopeFields acc' fs

/-- `json.Unmarshal(body, response)` for `response : *DetectorResponse`: a
JSON object decodes member by member, a JSON null is a no-op, anything else
is a decode error. -/
def decodeDetectorResponse : Json → Except String DetectorResponse
  | .obj fs => decodeEnvelopeFields {} fs
  | .null => .ok {}
  | j => .error ("cannot unmarshal " ++ serialize j ++ " into Go value of type es.DetectorResponse")

/-- The error the Get/Post/Put helpers wrap a decode failure in:
`fmt.Errorf("error unmarshalling Detector body: %+v: %+v", err, body)`. -/
def unmarshalWrapError (msg : String) (body : Json) : GoError :=
  .simple ("error unmarshalling Detector body: " ++ msg ++ ": " ++ serialize body)

/-! ## The CRUD operations

Each embedded operation also returns the list of HTTP requests it issued,
in order. -/

/-- `resourceElasticsearchOpenDistroGetDetector`: GET the item path, decode
the envelope, normalize the detector in place. -/
def resourceElasticsearchOpenDistroGetDetector (conf : ProviderConf)
    (detectorID : String) : Except GoError DetectorResponse × List HttpRequest :=
  let path := detectorItemPath detectorID
  match conf.client with
  | .error e => (.error e, [])
  | .ok .older => (.error notImplementedError, [])
  | .ok _ =>
    let req : HttpRequest := ⟨.get, path, none⟩
    match conf.perform req with
    | .error e => (.error e, [req])
    | .ok body =>
      match decodeDetectorResponse body with
      | .error msg => (.error (unmarshalWrapError msg body), [req])
      | .ok res => (.ok { res with detector := normalizeDetector res.detector }, [req])

/-- `resourceElasticsearchOpenDistroPostDetector`: POST the state's `body`
string to the collection path, decode the envelope, normalize the detector
in place. -/
def resourceElasticsearchOpenDistroPostDetector (conf : ProviderConf)
    (d : ResourceData) : Except GoError DetectorResponse × List HttpRequest :=
  let detectorJSON := d.body
  let path := detectorCollectionPath
  match conf.client with
  | .error e => (.error e, [])
  | .ok .older => (.error notImplementedError, [])
  | .ok _ =>
    let req : HttpRequest := ⟨.post, path, some detectorJSON⟩
    match conf.perform req with
    | .error e => (.error e, [req])
    | .ok body =>
      match decodeDetectorResponse body with
      | .error msg => (.error (unmarshalWrapError msg body), [req])
      | .ok res => (.ok { res with detector := normalizeDetector res.detector }, [req])

/-- `resourceElasticsearchOpenDistroPutDetector`: PUT the state's `body`
string to the item path and decode the envelope (no normalization here). -/
def resourceElasticsearchOpenDistroPutDetector (conf : ProviderConf)
    (d : ResourceData) : Except GoError DetectorResponse × List HttpRequest :=
  let detectorJSON := d.body
  let path := detectorItemPath d.id
  match conf.client with
  | .error e => (.error e, [])
  | .ok .older => (.error notImplementedError, [])
  | .ok _ =>
    let req : HttpRequest := ⟨.put, path, some detectorJSON⟩
    match conf.perform req with
    | .error e => (.error e, [req])
    | .ok body =>
      match decodeDetectorResponse body with
      | .error msg => (.error (unmarshalWrapError msg body), [req])
      | .ok res => (.ok res, [req])

/-- `resourceElasticsearchOpenDistroDetectorRead`: Get by the stored
identifier; a "not found" per either library's classifier clears the
identifier and succeeds; on success, store the envelope's identifier and
the normalized marshal of its detector in the `body` attribute.  (The
`json.Marshal` and `NormalizeJsonString` error returns of the Go code are
unreachable on a decoded detector value and have no counterpart here.) -/
def resourceElasticsearchOpenDistroDetectorRead (conf : ProviderConf)
    (d : ResourceData) : Option GoError × ResourceData × List HttpRequest :=
  match resourceElasticsearchOpenDistroGetDetector conf d.id with
  | (.error e, reqs) =>
      if elastic6IsNotFound e || elastic7IsNotFound e then
        (none, { d with id := "" }, reqs)
      else
        (some e, d, reqs)
  | (.ok res, reqs) =>
      (none, { id := res.id, body := marshalNormalized res.detector }, reqs)

/-- `resourceElasticsearchOpenDistroDetectorCreate`: Post; on success set
the identifier from the envelope and re-invoke Read. -/
def resourceElasticsearchOpenDistroDetectorCreate (conf : ProviderConf)
    (d : ResourceData) : Option GoError × ResourceData × List HttpRequest :=
  match resourceElasticsearchOpenDistroPostDetector conf d with
  | (.error e, reqs) => (some e, d, reqs)
  | (.ok res, reqs) =>
      let d1 := { d with id := res.id }
      match resourceElasticsearchOpenDistroDetectorRead conf d1 with
      | (e2, d2, reqs2) => (e2, d2, reqs ++ reqs2)

/-- `resourceElasticsearchOpenDistroDetectorUpdate`: Put; on success discard
the decoded envelope and delegate to Read. -/
def resourceElasticsearchOpenDistroDetectorUpdate (conf : ProviderConf)
    (d : ResourceData) : Option GoError × ResourceData × List HttpRequest :=
  match resourceElasticsearchOpenDistroPutDetector conf d with
  | (.error e, reqs) => (some e, d, reqs)
  | (.ok _, reqs) =>
      match resourceElasticsearchOpenDistroDetectorRead conf d with
      | (e2, d2, reqs2) => (e2, d2, reqs ++ reqs2)

/-- `resourceElasticsearchOpenDistroDetectorDelete`: DELETE the item path;
the response is discarded, any error is returned. -/
def resourceElasticsearchOpenDistroDetectorDelete (conf : ProviderConf)
    (d : ResourceData) : Option GoError × List HttpRequest :=
  let path := detectorItemPath d.id
  match conf.client with
  | .error e => (some e, [])
  | .ok .older => (some notImplementedError, [])
  | .ok _ =>
    let req : HttpRequest := ⟨.delete, path, none⟩
    match conf.perform req with
    | .error e => (some e, [req])
    | .ok _ => (none, [req])

/-! ## Helper lemmas -/

mutual

theorem normIdemJson :
    ∀ j : Json, normalizeDetector (normalizeDetector j) = normalizeDetector j
  | .null => rfl
  | .bool _ => rfl
  | .num _ => rfl
  | .str _ => rfl
  | .arr xs => by simp [normalizeDetector, normIdemList xs]
  | .obj fs => by simp [normalizeDetector, normIdemFields fs]

theorem normIdemList :
    ∀ xs : List Json, normalizeList (normalizeList xs) = normalizeList xs
  | [] => rfl
  | x :: xs => by simp [normalizeList, normIdemJson x, normIdemList xs]

theorem normIdemFields :
    ∀ fs : List (String × Json), normalizeFields (normalizeFields fs) = normalizeFields fs
  | [] => rfl
  | (k, v) :: fs => by
      by_cases h : isDefaultKey k = true
      · simp [normalizeFields, h, normIdemFields fs]
      · simp [normalizeFields, h, normIdemJson v, normIdemFields fs]

end

/-- The fixed "not implemented" error is not classified as "not found" by
either library's classifier. -/
theorem notImplemented_not_notFound :
    elastic6IsNotFound notImplementedError = false
    ∧ elastic7IsNotFound notImplementedError = false := by
  constructor <;> rfl

/-- A supported-generation Get whose transport fails surfaces the transport
error, having issued the one GET request. -/
theorem getDetector_error (conf : ProviderConf) (gen : ClientGen)
    (detectorID : String) (e : GoError)
    (h : conf.client = .ok gen) (hg : gen ≠ .older)
    (hp : conf.perform ⟨.get, detectorItemPath detectorID, none⟩ = .error e) :
    resourceElasticsearchOpenDistroGetDetector conf detectorID
      = (.error e, [⟨.get, detectorItemPath detectorID, none⟩]) := by
  cases gen with
  | older => exact absurd rfl hg
  | v6 => unfold resourceElasticsearchOpenDistroGetDetector; rw [h]; simp [hp]
  | v7 => unfold resourceElasticsearchOpenDistroGetDetector; rw [h]; simp [hp]

/-- A supported-generation Get whose transport and decode succeed returns the
decoded envelope with its detector normalized in place, having issued the one
GET request. -/
theorem getDetector_success (conf : ProviderConf) (gen : ClientGen)
    (detectorID : String) (body : Json) (res : DetectorResponse)
    (h : conf.client = .ok gen) (hg : gen ≠ .older)
    (hp : conf.perform ⟨.get, detectorItemPath detectorID, none⟩ = .ok body)
    (hd : decodeDetectorResponse body = .ok res) :
    resourceElasticsearchOpenDistroGetDetector conf detectorID
      = (.ok { res with detector := normalizeDetector res.detector },
         [⟨.get, detectorItemPath detectorID, none⟩]) := by
  cases gen with
  | older => exact absurd rfl hg
  | v6 => unfold resourceElasticsearchOpenDistroGetDetector; rw [h]; simp [hp, hd]
  | v7 => unfold resourceElasticsearchOpenDistroGetDetector; rw [h]; simp [hp, hd]

/-- A supported-generation Post whose transport fails surfaces the transport
error, having issued the one POST request. -/
theorem postDetector_httpError (conf : ProviderConf) (gen : ClientGen)
    (d : ResourceData) (e : GoError)
    (h : conf.client = .ok gen) (hg : gen ≠ .older)
    (hp : conf.perform ⟨.post, detectorCollectionPath, some d.body⟩ = .error e) :
    resourceElasticsearchOpenDistroPostDetector conf d
      = (.error e, [⟨.post, detectorCollectionPath, some d.body⟩]) := by
  cases gen with
  | older => exact absurd rfl hg
  | v6 => unfold resourceElasticsearchOpenDistroPostDetector; rw [h]; simp [hp]
  | v7 => unfold resourceElasticsearchOpenDistroPostDetector; rw [h]; simp [hp]

/-- A supported-generation Post whose response body does not decode as the
envelope returns the wrapped decode error. -/
theorem postDetector_decodeError (conf : ProviderConf) (gen : ClientGen)
    (d : ResourceData) (body : Json) (msg : String)
    (h : conf.client = .ok gen) (hg : gen ≠ .older)
    (hp : conf.perform ⟨.post, detectorCollectionPath, some d.body⟩ = .ok body)
    (hd : decodeDetectorResponse body = .error msg) :
    resourceElasticsearchOpenDistroPostDetector conf d
      = (.error (unmarshalWrapError msg body),
         [⟨.post, detectorCollectionPath, some d.body⟩]) := by
  cases gen with
  | older => exact absurd rfl hg
  | v6 => unfold resourceElasticsearchOpenDistroPostDetector; rw [h]; simp [hp, hd]
  | v7 => unfold resourceElasticsearchOpenDistroPostDetector; rw [h]; simp [hp, hd]

/-- A supported-generation Post whose transport and decode succeed returns
the decoded envelope with its detector normalized in place. -/
theorem postDetector_success (conf : ProviderConf) (gen : ClientGen)
    (d : ResourceData) (body : Json) (res : DetectorResponse)
    (h : conf.client = .ok gen) (hg : gen ≠ .older)
    (hp : conf.perform ⟨.post, detectorCollectionPath, some d.body⟩ = .ok body)
    (hd : decodeDetectorResponse body = .ok res) :
    resourceElasticsearchOpenDistroPostDetector conf d
      = (.ok { res with detector := normalizeDetector res.detector },
         [⟨.post, detectorCollectionPath, some d.body⟩]) := by
  cases gen with
  | older => exact absurd rfl hg
  | v6 => unfold resourceElasticsearchOpenDistroPostDetector; rw [h]; simp [hp, hd]
  | v7 => unfold resourceElasticsearchOpenDistroPostDetector; rw [h]; simp [hp, hd]

/-- A supported-generation Put whose transport and decode succeed returns
the decoded envelope unchanged (Put does not normalize). -/
theorem putDetector_success (conf : ProviderConf) (gen : ClientGen)
    (d : ResourceData) (body : Json) (res : DetectorResponse)
    (h : conf.client = .ok gen) (hg : gen ≠ .older)
    (hp : conf.perform ⟨.put, detectorItemPath d.id, some d.body⟩ = .ok body)
    (hd : decodeDetectorResponse body = .ok res) :
    resourceElasticsearchOpenDistroPutDetector conf d
      = (.ok res, [⟨.put, detectorItemPath d.id, some d.body⟩]) := by
  cases gen with
  | older => exact absurd rfl hg
  | v6 => unfold resourceElasticsearchOpenDistroPutDetector; rw [h]; simp [hp, hd]
  | v7 => unfold resourceElasticsearchOpenDistroPutDetector; rw [h]; simp [hp, hd]

/-- A Read whose Get succeeds stores the envelope's identifier and the
normalized marshal of its (already normalized) detector. -/
theorem readDetector_success (conf : ProviderConf) (gen : ClientGen)
    (d : ResourceData) (body : Json) (res : DetectorResponse)
    (h : conf.client = .ok gen) (hg : gen ≠ .older)
    (hp : conf.perform ⟨.get, detectorItemPath d.id, none⟩ = .ok body)
    (hd : decodeDetectorResponse body = .ok res) :
    resourceElasticsearchOpenDistroDetectorRead conf d
      = (none,
         { id := res.id, body := marshalNormalized (normalizeDetector res.detector) },
         [⟨.get, detectorItemPath d.id, none⟩]) := by
  unfold resourceElasticsearchOpenDistroDetectorRead
  rw [getDetector_success conf gen d.id body res h hg hp hd]

/-- A Read whose Get fails with an error either library classifies as "not
found" clears the identifier and succeeds. -/
theorem readDetector_notFound (conf : ProviderConf) (gen : ClientGen)
    (d : ResourceData) (e : GoError)
    (h : conf.client = .ok gen) (hg : gen ≠ .older)
    (hp : conf.perform ⟨.get, detectorItemPath d.id, none⟩ = .error e)
    (hnf : (elastic6IsNotFound e || elastic7IsNotFound e) = true) :
    resourceElasticsearchOpenDistroDetectorRead conf d
      = (none, { d with id := "" }, [⟨.get, detectorItemPath d.id, none⟩]) := by
  unfold resourceElasticsearchOpenDistroDetectorRead
  rw [getDetector_error conf gen d.id e h hg hp]
  simp [hnf]

/-! ## Claims -/

/-- C7: The detector normalizer is idempotent: for every decoded detector
JSON object `x`, `normalize(normalize(x)) = normalize(x)`. -/
theorem c7_normalizeDetector_idempotent (x : Json) :
    normalizeDetector (normalizeDetector x) = normalizeDetector x :=
  normIdemJson x

/-- C3: When the selected client handle is the oldest supported generation
(neither the v6 nor the v7 client), each CRUD operation — Create, Read,
Update, Delete, and the Get helper — returns the fixed "not implemented"
error and issues no HTTP request (its request trace is empty). -/
theorem c3_oldest_generation_not_implemented_no_request
    (conf : ProviderConf) (d : ResourceData) (detectorID : String)
    (h : conf.client = .ok .older) :
    resourceElasticsearchOpenDistroDetectorCreate conf d
      = (some notImplementedError, d, [])
    ∧ resourceElasticsearchOpenDistroDetectorRead conf d
      = (some notImplementedError, d, [])
    ∧ resourceElasticsearchOpenDistroDetectorUpdate conf d
      = (some notImplementedError, d, [])
    ∧ resourceElasticsearchOpenDistroDetectorDelete conf d
      = (some notImplementedError, [])
    ∧ resourceElasticsearchOpenDistroGetDetector conf detectorID
      = (.error notImplementedError, []) := by
  have hget : ∀ s, resourceElasticsearchOpenDistroGetDetector conf s
      = (.error notImplementedError, []) := by
    intro s
    unfold resourceElasticsearchOpenDistroGetDetector
    rw [h]
  have hpost : resourceElasticsearchOpenDistroPostDetector conf d
      = (.error notImplementedError, []) := by
    unfold resourceElasticsearchOpenDistroPostDetector
    rw [h]
  have hput : resourceElasticsearchOpenDistroPutDetector conf d
      = (.error notImplementedError, []) := by
    unfold resourceElasticsearchOpenDistroPutDetector
    rw [h]
  have hread : resourceElasticsearchOpenDistroDetectorRead conf d
      = (some notImplementedError, d, []) := by
    unfold resourceElasticsearchOpenDistroDetectorRead
    rw [hget d.id]
    simp [elastic6IsNotFound, elastic7IsNotFound, notImplementedError]
  refine ⟨?_, hread, ?_, ?_, hget detectorID⟩
  · unfold resourceElasticsearchOpenDistroDetectorCreate
    rw [hpost]
  · unfold resourceElasticsearchOpenDistroDetectorUpdate
    rw [hput]
  · unfold resourceElasticsearchOpenDistroDetectorDelete
    rw [h]

/-- Witness for C3 at a concrete configuration and state. -/
theorem c3_witness :
    resourceElasticsearchOpenDistroDetectorCreate
        ⟨.ok .older, fun _ => .ok .null⟩ ⟨"i", "b"⟩
      = (some notImplementedError, ⟨"i", "b"⟩, [])
    ∧ resourceElasticsearchOpenDistroDetectorRead
        ⟨.ok .older, fun _ => .ok .null⟩ ⟨"i", "b"⟩
      = (some notImplementedError, ⟨"i", "b"⟩, [])
    ∧ resourceElasticsearchOpenDistroDetectorUpdate
        ⟨.ok .older, fun _ => .ok .null⟩ ⟨"i", "b"⟩
      = (some notImplementedError, ⟨"i", "b"⟩, [])
    ∧ resourceElasticsearchOpenDistroDetectorDelete
        ⟨.ok .older, fun _ => .ok .null⟩ ⟨"i", "b"⟩
      = (some notImplementedError, [])
    ∧ resourceElasticsearchOpenDistroGetDetector
        ⟨.ok .older, fun _ => .ok .null⟩ "x"
      = (.error notImplementedError, []) :=
  c3_oldest_generation_not_implemented_no_request _ _ "x" rfl

/-- C2: A success response of shape `(_id, _version, detector: (...))`
decodes into the `DetectorResponse` envelope carrying the identifier, the
version number and the object under the response's `detector` key (which
lands, case-insensitively, in the field tagged `Detector`); on such a
response the Get and Post helpers (through which every successful Create
and Read goes) return exactly that envelope, with the detector
normalized in place. -/
theorem c2_envelope_decoding
    (conf : ProviderConf) (gen : ClientGen) (d : ResourceData)
    (detectorID i : String) (v : Int) (D : Json) (fs : List (String × Json))
    (h : conf.client = .ok gen) (hg : gen ≠ .older)
    (hD : D = .obj fs)
    (hget : conf.perform ⟨.get, detectorItemPath detectorID, none⟩
      = .ok (.obj [("_id", .str i), ("_version", .num v), ("detector", D)]))
    (hpost : conf.perform ⟨.post, detectorCollectionPath, some d.body⟩
      = .ok (.obj [("_id", .str i), ("_version", .num v), ("detector", D)])) :
    decodeDetectorResponse (.obj [("_id", .str i), ("_version", .num v), ("detector", D)])
      = .ok { version := v, id := i, detector := D }
    ∧ (resourceElasticsearchOpenDistroGetDetector conf detectorID).1
      = .ok { version := v, id := i, detector := normalizeDetector D }
    ∧ (resourceElasticsearchOpenDistroPostDetector conf d).1
      = .ok { version := v, id := i, detector := normalizeDetector D } := by
  subst hD
  have hdec : decodeDetectorResponse
      (.obj [("_id", .str i), ("_version", .num v), ("detector", .obj fs)])
      = .ok { version := v, id := i, detector := .obj fs } := rfl
  refine ⟨hdec, ?_, ?_⟩
  · cases gen with
    | older => exact absurd rfl hg
    | v6 =>
        unfold resourceElasticsearchOpenDistroGetDetector
        rw [h]
        simp [hget, hdec]
    | v7 =>
        unfold resourceElasticsearchOpenDistroGetDetector
        rw [h]
        simp [hget, hdec]
  · cases gen with
    | older => exact absurd rfl hg
    | v6 =>
        unfold resourceElasticsearchOpenDistroPostDetector
        rw [h]
        simp [hpost, hdec]
    | v7 =>
        unfold resourceElasticsearchOpenDistroPostDetector
        rw [h]
        simp [hpost, hdec]

/-- Witness for C2 at a concrete configuration, response and state. -/
theorem c2_witness :
    decodeDetectorResponse (.obj [("_id", .str "d1"), ("_version", .num 3),
        ("detector", .obj [("name", .str "n")])])
      = .ok { version := 3, id := "d1", detector := .obj [("name", .str "n")] }
    ∧ (resourceElasticsearchOpenDistroGetDetector
        ⟨.ok .v7, fun _ => .ok (.obj [("_id", .str "d1"), ("_version", .num 3),
          ("detector", .obj [("name", .str "n")])])⟩ "d1").1
      = .ok ⟨3, "d1", normalizeDetector (.obj [("name", .str "n")])⟩
    ∧ (resourceElasticsearchOpenDistroPostDetector
        ⟨.ok .v7, fun _ => .ok (.obj [("_id", .str "d1"), ("_version", .num 3),
          ("detector", .obj [("name", .str "n")])])⟩ ⟨"", "bodytext"⟩).1
      = .ok ⟨3, "d1", normalizeDetector (.obj [("name", .str "n")])⟩ :=
  c2_envelope_decoding _ .v7 ⟨"", "bodytext"⟩ "d1" "d1" 3 _ [("name", .str "n")]
    rfl (by decide) rfl rfl rfl

/-- C4: When the GET issued by Read fails with an error that the active
client generation's classifier classifies as "not found", Read clears the
local identifier and returns success (no error). -/
theorem c4_read_not_found_clears_identifier
    (conf : ProviderConf) (gen : ClientGen) (d : ResourceData) (e : GoError)
    (h : conf.client = .ok gen)
    (hp : conf.perform ⟨.get, detectorItemPath d.id, none⟩ = .error e)
    (hnf : classifiesNotFound gen e = true) :
    resourceElasticsearchOpenDistroDetectorRead conf d
      = (none, { d with id := "" }, [⟨.get, detectorItemPath d.id, none⟩]) := by
  cases gen with
  | older => simp [classifiesNotFound] at hnf
  | v6 =>
      have hget : resourceElasticsearchOpenDistroGetDetector conf d.id
          = (.error e, [⟨.get, detectorItemPath d.id, none⟩]) := by
        unfold resourceElasticsearchOpenDistroGetDetector
        rw [h]
        simp [hp]
      unfold resourceElasticsearchOpenDistroDetectorRead
      rw [hget]
      simp [classifiesNotFound] at hnf
      simp [hnf]
  | v7 =>
      have hget : resourceElasticsearchOpenDistroGetDetector conf d.id
          = (.error e, [⟨.get, detectorItemPath d.id, none⟩]) := by
        unfold resourceElasticsearchOpenDistroGetDetector
        rw [h]
        simp [hp]
      unfold resourceElasticsearchOpenDistroDetectorRead
      rw [hget]
      simp [classifiesNotFound] at hnf
      simp [hnf]

/-- Witness for C4 at a concrete configuration and state. -/
theorem c4_witness :
    resourceElasticsearchOpenDistroDetectorRead
        ⟨.ok .v7, fun _ => .error (.elastic .v7 404 "not found")⟩ ⟨"abc", "b"⟩
      = (none, ⟨"", "b"⟩, [⟨.get, detectorItemPath "abc", none⟩]) :=
  c4_read_not_found_clears_identifier _ .v7 ⟨"abc", "b"⟩ (.elastic .v7 404 "not found")
    rfl rfl rfl

/-- C8: In each of the Get, Post and Put helpers, when the HTTP call
succeeds but the response body fails to decode as the envelope, the helper
returns a fatal error whose message includes the raw response body. -/
theorem c8_decode_failure_error_includes_raw_body
    (conf : ProviderConf) (gen : ClientGen) (d : ResourceData)
    (detectorID : String) (body : Json) (msg : String)
    (h : conf.client = .ok gen) (hg : gen ≠ .older)
    (hd : decodeDetectorResponse body = .error msg)
    (hget : conf.perform ⟨.get, detectorItemPath detectorID, none⟩ = .ok body)
    (hpost : conf.perform ⟨.post, detectorCollectionPath, some d.body⟩ = .ok body)
    (hput : conf.perform ⟨.put, detectorItemPath d.id, some d.body⟩ = .ok body) :
    (resourceElasticsearchOpenDistroGetDetector conf detectorID).1
      = .error (unmarshalWrapError msg body)
    ∧ (resourceElasticsearchOpenDistroPostDetector conf d).1
      = .error (unmarshalWrapError msg body)
    ∧ (resourceElasticsearchOpenDistroPutDetector conf d).1
      = .error (unmarshalWrapError msg body)
    ∧ ∃ pre, unmarshalWrapError msg body = .simple (pre ++ serialize body) := by
  refine ⟨?_, ?_, ?_, "error unmarshalling Detector body: " ++ msg ++ ": ", ?_⟩
  · cases gen with
    | older => exact absurd rfl hg
    | v6 =>
        unfold resourceElasticsearchOpenDistroGetDetector
        rw [h]
        simp [hget, hd]
    | v7 =>
        unfold resourceElasticsearchOpenDistroGetDetector
        rw [h]
        simp [hget, hd]
  · cases gen with
    | older => exact absurd rfl hg
    | v6 =>
        unfold resourceElasticsearchOpenDistroPostDetector
        rw [h]
        simp [hpost, hd]
    | v7 =>
        unfold resourceElasticsearchOpenDistroPostDetector
        rw [h]
        simp [hpost, hd]
  · cases gen with
    | older => exact absurd rfl hg
    | v6 =>
        unfold resourceElasticsearchOpenDistroPutDetector
        rw [h]
        simp [hput, hd]
    | v7 =>
        unfold resourceElasticsearchOpenDistroPutDetector
        rw [h]
        simp [hput, hd]
  · simp [unmarshalWrapError, String.append_assoc]

/-- Witness for C8 at a concrete configuration whose transport answers every
request with a body that is not an envelope. -/
theorem c8_witness :
    (resourceElasticsearchOpenDistroGetDetector
        ⟨.ok .v6, fun _ => .ok (.num 0)⟩ "x").1
      = .error (unmarshalWrapError
          "cannot unmarshal 0 into Go value of type es.DetectorResponse" (.num 0))
    ∧ (resourceElasticsearchOpenDistroPostDetector
        ⟨.ok .v6, fun _ => .ok (.num 0)⟩ ⟨"x", "bb"⟩).1
      = .error (unmarshalWrapError
          "cannot unmarshal 0 into Go value of type es.DetectorResponse" (.num 0))
    ∧ (resourceElasticsearchOpenDistroPutDetector
        ⟨.ok .v6, fun _ => .ok (.num 0)⟩ ⟨"x", "bb"⟩).1
      = .error (unmarshalWrapError
          "cannot unmarshal 0 into Go value of type es.DetectorResponse" (.num 0))
    ∧ ∃ pre, unmarshalWrapError
        "cannot unmarshal 0 into Go value of type es.DetectorResponse" (.num 0)
      = .simple (pre ++ serialize (.num 0)) :=
  c8_decode_failure_error_includes_raw_body _ .v6 ⟨"x", "bb"⟩ "x" (.num 0) _
    rfl (by decide) rfl rfl rfl rfl

/-- C9: On every successful Read, the local `body` is set to the
whitespace-normalized JSON encoding of the normalized detector object from
the envelope, and the local identifier is set to the identifier from the
envelope. -/
theorem c9_read_success_stores_normalized_body
    (conf : ProviderConf) (gen : ClientGen) (d : ResourceData)
    (body : Json) (res : DetectorResponse)
    (h : conf.client = .ok gen) (hg : gen ≠ .older)
    (hp : conf.perform ⟨.get, detectorItemPath d.id, none⟩ = .ok body)
    (hd : decodeDetectorResponse body = .ok res) :
    resourceElasticsearchOpenDistroDetectorRead conf d
      = (none,
         { id := res.id, body := marshalNormalized (normalizeDetector res.detector) },
         [⟨.get, detectorItemPath d.id, none⟩]) := by
  have hget : resourceElasticsearchOpenDistroGetDetector conf d.id
      = (.ok { res with detector := normalizeDetector res.detector },
         [⟨.get, detectorItemPath d.id, none⟩]) := by
    cases gen with
    | older => exact absurd rfl hg
    | v6 =>
        unfold resourceElasticsearchOpenDistroGetDetector
        rw [h]
        simp [hp, hd]
    | v7 =>
        unfold resourceElasticsearchOpenDistroGetDetector
        rw [h]
        simp [hp, hd]
  unfold resourceElasticsearchOpenDistroDetectorRead
  rw [hget]

/-- Witness for C9 at a concrete configuration and response. -/
theorem c9_witness :
    resourceElasticsearchOpenDistroDetectorRead
        ⟨.ok .v6, fun _ => .ok (.obj [("_id", .str "d9"), ("_version", .num 2),
          ("detector", .obj [("name", .str "n"), ("boost", .num 1)])])⟩ ⟨"d9", "old"⟩
      = (none,
         { id := "d9",
           body := marshalNormalized (normalizeDetector
             (.obj [("name", .str "n"), ("boost", .num 1)])) },
         [⟨.get, detectorItemPath "d9", none⟩]) :=
  c9_read_success_stores_normalized_body _ .v6 ⟨"d9", "old"⟩
    (.obj [("_id", .str "d9"), ("_version", .num 2),
      ("detector", .obj [("name", .str "n"), ("boost", .num 1)])])
    { version := 2, id := "d9",
      detector := .obj [("name", .str "n"), ("boost", .num 1)] }
    rfl (by decide) rfl rfl

/-- C5: Create sends a POST of the validated body string to the collection
path; on success it decodes the envelope (normalizing its detector), sets
the local identifier to the identifier from the envelope and re-invokes
Read; it fails when the HTTP call fails and when the response does not
parse as the envelope.  The three outcomes are witnessed by three
configurations whose transports answer the POST with a transport error, an
undecodable body, and a well-formed envelope respectively. -/
theorem c5_create_posts_decodes_sets_id_then_reads
    (conf₁ conf₂ conf₃ : ProviderConf) (gen₁ gen₂ gen₃ : ClientGen)
    (d : ResourceData) (e : GoError) (badBody okBody : Json) (msg : String)
    (res : DetectorResponse)
    (h₁ : conf₁.client = .ok gen₁) (hg₁ : gen₁ ≠ .older)
    (h₂ : conf₂.client = .ok gen₂) (hg₂ : gen₂ ≠ .older)
    (h₃ : conf₃.client = .ok gen₃) (hg₃ : gen₃ ≠ .older)
    (hp₁ : conf₁.perform ⟨.post, detectorCollectionPath, some d.body⟩ = .error e)
    (hp₂ : conf₂.perform ⟨.post, detectorCollectionPath, some d.body⟩ = .ok badBody)
    (hbad : decodeDetectorResponse badBody = .error msg)
    (hp₃ : conf₃.perform ⟨.post, detectorCollectionPath, some d.body⟩ = .ok okBody)
    (hok : decodeDetectorResponse okBody = .ok res) :
    resourceElasticsearchOpenDistroDetectorCreate conf₁ d
      = (some e, d, [⟨.post, detectorCollectionPath, some d.body⟩])
    ∧ resourceElasticsearchOpenDistroDetectorCreate conf₂ d
      = (some (unmarshalWrapError msg badBody), d,
         [⟨.post, detectorCollectionPath, some d.body⟩])
    ∧ (resourceElasticsearchOpenDistroPostDetector conf₃ d).1
      = .ok { res with detector := normalizeDetector res.detector }
    ∧ resourceElasticsearchOpenDistroDetectorCreate conf₃ d
      = ((resourceElasticsearchOpenDistroDetectorRead conf₃ { d with id := res.id }).1,
         (resourceElasticsearchOpenDistroDetectorRead conf₃ { d with id := res.id }).2.1,
         ⟨.post, detectorCollectionPath, some d.body⟩ ::
           (resourceElasticsearchOpenDistroDetectorRead conf₃ { d with id := res.id }).2.2) := by
  refine ⟨?_, ?_, ?_, ?_⟩
  · unfold resourceElasticsearchOpenDistroDetectorCreate
    rw [postDetector_httpError conf₁ gen₁ d e h₁ hg₁ hp₁]
  · unfold resourceElasticsearchOpenDistroDetectorCreate
    rw [postDetector_decodeError conf₂ gen₂ d badBody msg h₂ hg₂ hp₂ hbad]
  · rw [postDetector_success conf₃ gen₃ d okBody res h₃ hg₃ hp₃ hok]
  · unfold resourceElasticsearchOpenDistroDetectorCreate
    rw [postDetector_success conf₃ gen₃ d okBody res h₃ hg₃ hp₃ hok]
    rfl

/-- Witness for C5 at three concrete configurations. -/
theorem c5_witness :
    resourceElasticsearchOpenDistroDetectorCreate
        ⟨.ok .v7, fun _ => .error (.simple "boom")⟩ ⟨"", "nb"⟩
      = (some (.simple "boom"), ⟨"", "nb"⟩, [⟨.post, detectorCollectionPath, some "nb"⟩])
    ∧ resourceElasticsearchOpenDistroDetectorCreate
        ⟨.ok .v7, fun _ => .ok (.num 0)⟩ ⟨"", "nb"⟩
      = (some (unmarshalWrapError
           "cannot unmarshal 0 into Go value of type es.DetectorResponse" (.num 0)),
         ⟨"", "nb"⟩, [⟨.post, detectorCollectionPath, some "nb"⟩])
    ∧ (resourceElasticsearchOpenDistroPostDetector
        ⟨.ok .v7, fun _ => .ok (.obj [("_id", .str "c5"), ("_version", .num 1),
          ("detector", .obj [("name", .str "n")])])⟩ ⟨"", "nb"⟩).1
      = .ok ⟨1, "c5", normalizeDetector (.obj [("name", .str "n")])⟩
    ∧ resourceElasticsearchOpenDistroDetectorCreate
        ⟨.ok .v7, fun _ => .ok (.obj [("_id", .str "c5"), ("_version", .num 1),
          ("detector", .obj [("name", .str "n")])])⟩ ⟨"", "nb"⟩
      = ((resourceElasticsearchOpenDistroDetectorRead
            ⟨.ok .v7, fun _ => .ok (.obj [("_id", .str "c5"), ("_version", .num 1),
              ("detector", .obj [("name", .str "n")])])⟩ ⟨"c5", "nb"⟩).1,
         (resourceElasticsearchOpenDistroDetectorRead
            ⟨.ok .v7, fun _ => .ok (.obj [("_id", .str "c5"), ("_version", .num 1),
              ("detector", .obj [("name", .str "n")])])⟩ ⟨"c5", "nb"⟩).2.1,
         ⟨.post, detectorCollectionPath, some "nb"⟩ ::
           (resourceElasticsearchOpenDistroDetectorRead
             ⟨.ok .v7, fun _ => .ok (.obj [("_id", .str "c5"), ("_version", .num 1),
               ("detector", .obj [("name", .str "n")])])⟩ ⟨"c5", "nb"⟩).2.2) :=
  c5_create_posts_decodes_sets_id_then_reads
    ⟨.ok .v7, fun _ => .error (.simple "boom")⟩
    ⟨.ok .v7, fun _ => .ok (.num 0)⟩
    ⟨.ok .v7, fun _ => .ok (.obj [("_id", .str "c5"), ("_version", .num 1),
      ("detector", .obj [("name", .str "n")])])⟩
    .v7 .v7 .v7 ⟨"", "nb"⟩ (.simple "boom") (.num 0)
    (.obj [("_id", .str "c5"), ("_version", .num 1),
      ("detector", .obj [("name", .str "n")])])
    "cannot unmarshal 0 into Go value of type es.DetectorResponse"
    ⟨1, "c5", .obj [("name", .str "n")]⟩
    rfl (by decide) rfl (by decide) rfl (by decide) rfl rfl rfl rfl rfl

/-- C6: Update sends a PUT of the new body string to the item path and,
when the PUT succeeds, returns exactly the result of delegating to Read
(the same error and the same final state, with only the PUT request
prepended to the trace); the decoded PUT response `res` and its version
number appear nowhere in the result. -/
theorem c6_update_puts_then_delegates_to_read
    (conf : ProviderConf) (gen : ClientGen) (d : ResourceData)
    (body : Json) (res : DetectorResponse)
    (h : conf.client = .ok gen) (hg : gen ≠ .older)
    (hp : conf.perform ⟨.put, detectorItemPath d.id, some d.body⟩ = .ok body)
    (hd : decodeDetectorResponse body = .ok res) :
    resourceElasticsearchOpenDistroPutDetector conf d
      = (.ok res, [⟨.put, detectorItemPath d.id, some d.body⟩])
    ∧ resourceElasticsearchOpenDistroDetectorUpdate conf d
      = ((resourceElasticsearchOpenDistroDetectorRead conf d).1,
         (resourceElasticsearchOpenDistroDetectorRead conf d).2.1,
         ⟨.put, detectorItemPath d.id, some d.body⟩ ::
           (resourceElasticsearchOpenDistroDetectorRead conf d).2.2) := by
  refine ⟨putDetector_success conf gen d body res h hg hp hd, ?_⟩
  unfold resourceElasticsearchOpenDistroDetectorUpdate
  rw [putDetector_success conf gen d body res h hg hp hd]
  rfl

/-- Witness for C6 at a concrete configuration whose transport answers the
PUT with one envelope and the refresh GET with another. -/
theorem c6_witness :
    resourceElasticsearchOpenDistroPutDetector
        ⟨.ok .v6, fun r => if r.method = .put
          then .ok (.obj [("_id", .str "u1"), ("_version", .num 7),
            ("detector", .obj [("a", .num 1)])])
          else .ok (.obj [("_id", .str "u1"), ("_version", .num 8),
            ("detector", .obj [("a", .num 2)])])⟩ ⟨"u1", "newbody"⟩
      = (.ok ⟨7, "u1", .obj [("a", .num 1)]⟩,
         [⟨.put, detectorItemPath "u1", some "newbody"⟩])
    ∧ resourceElasticsearchOpenDistroDetectorUpdate
        ⟨.ok .v6, fun r => if r.method = .put
          then .ok (.obj [("_id", .str "u1"), ("_version", .num 7),
            ("detector", .obj [("a", .num 1)])])
          else .ok (.obj [("_id", .str "u1"), ("_version", .num 8),
            ("detector", .obj [("a", .num 2)])])⟩ ⟨"u1", "newbody"⟩
      = ((resourceElasticsearchOpenDistroDetectorRead
            ⟨.ok .v6, fun r => if r.method = .put
              then .ok (.obj [("_id", .str "u1"), ("_version", .num 7),
                ("detector", .obj [("a", .num 1)])])
              else .ok (.obj [("_id", .str "u1"), ("_version", .num 8),
                ("detector", .obj [("a", .num 2)])])⟩ ⟨"u1", "newbody"⟩).1,
         (resourceElasticsearchOpenDistroDetectorRead
            ⟨.ok .v6, fun r => if r.method = .put
              then .ok (.obj [("_id", .str "u1"), ("_version", .num 7),
                ("detector", .obj [("a", .num 1)])])
              else .ok (.obj [("_id", .str "u1"), ("_version", .num 8),
                ("detector", .obj [("a", .num 2)])])⟩ ⟨"u1", "newbody"⟩).2.1,
         ⟨.put, detectorItemPath "u1", some "newbody"⟩ ::
           (resourceElasticsearchOpenDistroDetectorRead
             ⟨.ok .v6, fun r => if r.method = .put
               then .ok (.obj [("_id", .str "u1"), ("_version", .num 7),
                 ("detector", .obj [("a", .num 1)])])
               else .ok (.obj [("_id", .str "u1"), ("_version", .num 8),
                 ("detector", .obj [("a", .num 2)])])⟩ ⟨"u1", "newbody"⟩).2.2) :=
  c6_update_puts_then_delegates_to_read _ .v6 ⟨"u1", "newbody"⟩
    (.obj [("_id", .str "u1"), ("_version", .num 7), ("detector", .obj [("a", .num 1)])])
    ⟨7, "u1", .obj [("a", .num 1)]⟩
    rfl (by decide) rfl rfl

/-- C10: When Create's POST succeeds and decodes but the internal Read's
GET on the newly created identifier fails with an error the code's
classifiers call "not found", Create returns success (no error) with the
local identifier cleared to the empty string. -/
theorem c10_create_then_not_found_silent_success
    (conf : ProviderConf) (gen : ClientGen) (d : ResourceData)
    (pbody : Json) (res : DetectorResponse) (e : GoError)
    (h : conf.client = .ok gen) (hg : gen ≠ .older)
    (hp : conf.perform ⟨.post, detectorCollectionPath, some d.body⟩ = .ok pbody)
    (hd : decodeDetectorResponse pbody = .ok res)
    (hge : conf.perform ⟨.get, detectorItemPath res.id, none⟩ = .error e)
    (hnf : (elastic6IsNotFound e || elastic7IsNotFound e) = true) :
    resourceElasticsearchOpenDistroDetectorCreate conf d
      = (none, ⟨"", d.body⟩,
         [⟨.post, detectorCollectionPath, some d.body⟩,
          ⟨.get, detectorItemPath res.id, none⟩]) := by
  unfold resourceElasticsearchOpenDistroDetectorCreate
  rw [postDetector_success conf gen d pbody res h hg hp hd]
  have hread := readDetector_notFound conf gen { d with id := res.id } e h hg hge hnf
  simp only at hread
  simp [hread]

/-- Witness for C10 at a concrete configuration whose transport accepts the
POST and answers the refresh GET with a v7 404. -/
theorem c10_witness :
    resourceElasticsearchOpenDistroDetectorCreate
        ⟨.ok .v7, fun r => if r.method = .post
          then .ok (.obj [("_id", .str "gone"), ("_version", .num 1),
            ("detector", .obj [])])
          else .error (.elastic .v7 404 "deleted meanwhile")⟩ ⟨"", "cb"⟩
      = (none, ⟨"", "cb"⟩,
         [⟨.post, detectorCollectionPath, some "cb"⟩,
          ⟨.get, detectorItemPath "gone", none⟩]) :=
  c10_create_then_not_found_silent_success _ .v7 ⟨"", "cb"⟩
    (.obj [("_id", .str "gone"), ("_version", .num 1), ("detector", .obj [])])
    ⟨1, "gone", .obj []⟩ (.elastic .v7 404 "deleted meanwhile")
    rfl (by decide) rfl rfl rfl rfl

/-- C1: After a successful Create (POST accepted, refresh GET decodes) or
Update (PUT accepted, refresh GET decodes), the body the subsequent Read
stores is exactly the canonical whitespace-normalized encoding of the
written body's value with the server-injected default fields stripped by
the normalizer — i.e. it normalizes identically to the body that was just
written, modulo those defaults.  `w` is the value of the written `body`
attribute (the schema's StateFunc keeps the attribute in canonical
normalized form, hence `hbody`); the `hserver` hypotheses say the detector
the server returns from the refresh GET agrees with the written value up to
the normalizer-stripped default fields (and the key order Go maps forget),
which is the "modulo server-injected defaults" proviso of the claim. -/
theorem c1_create_update_read_roundtrip
    (conf : ProviderConf) (gen : ClientGen) (d : ResourceData) (w : Json)
    (pbody gbody qbody g2body : Json) (pres gres qres g2res : DetectorResponse)
    (h : conf.client = .ok gen) (hg : gen ≠ .older)
    (hbody : d.body = serialize (canonJson w))
    (hp : conf.perform ⟨.post, detectorCollectionPath, some d.body⟩ = .ok pbody)
    (hpd : decodeDetectorResponse pbody = .ok pres)
    (hcg : conf.perform ⟨.get, detectorItemPath pres.id, none⟩ = .ok gbody)
    (hcgd : decodeDetectorResponse gbody = .ok gres)
    (hserver₁ : canonJson (normalizeDetector gres.detector)
      = canonJson (normalizeDetector w))
    (hq : conf.perform ⟨.put, detectorItemPath d.id, some d.body⟩ = .ok qbody)
    (hqd : decodeDetectorResponse qbody = .ok qres)
    (hug : conf.perform ⟨.get, detectorItemPath d.id, none⟩ = .ok g2body)
    (hugd : decodeDetectorResponse g2body = .ok g2res)
    (hserver₂ : canonJson (normalizeDetector g2res.detector)
      = canonJson (normalizeDetector w)) :
    ((resourceElasticsearchOpenDistroDetectorCreate conf d).1 = none
      ∧ (resourceElasticsearchOpenDistroDetectorCreate conf d).2.1.body
        = marshalNormalized (normalizeDetector w))
    ∧ ((resourceElasticsearchOpenDistroDetectorUpdate conf d).1 = none
      ∧ (resourceElasticsearchOpenDistroDetectorUpdate conf d).2.1.body
        = marshalNormalized (normalizeDetector w)) := by
  have hcreate : resourceElasticsearchOpenDistroDetectorCreate conf d
      = (none,
         { id := gres.id, body := marshalNormalized (normalizeDetector gres.detector) },
         [⟨.post, detectorCollectionPath, some d.body⟩,
          ⟨.get, detectorItemPath pres.id, none⟩]) := by
    unfold resourceElasticsearchOpenDistroDetectorCreate
    rw [postDetector_success conf gen d pbody pres h hg hp hpd]
    have hread := readDetector_success conf gen { d with id := pres.id } gbody gres
      h hg hcg hcgd
    simp only at hread
    simp [hread]
  have hupdate : resourceElasticsearchOpenDistroDetectorUpdate conf d
      = (none,
         { id := g2res.id, body := marshalNormalized (normalizeDetector g2res.detector) },
         [⟨.put, detectorItemPath d.id, some d.body⟩,
          ⟨.get, detectorItemPath d.id, none⟩]) := by
    unfold resourceElasticsearchOpenDistroDetectorUpdate
    rw [putDetector_success conf gen d qbody qres h hg hq hqd]
    have hread := readDetector_success conf gen d g2body g2res h hg hug hugd
    simp [hread]
  have hb₁ : marshalNormalized (normalizeDetector gres.detector)
      = marshalNormalized (normalizeDetector w) := by
    simp [marshalNormalized, hserver₁]
  have hb₂ : marshalNormalized (normalizeDetector g2res.detector)
      = marshalNormalized (normalizeDetector w) := by
    simp [marshalNormalized, hserver₂]
  rw [hcreate, hupdate]
  exact ⟨⟨rfl, hb₁⟩, ⟨rfl, hb₂⟩⟩

/-- Witness for C1: a written body carrying a user `boost` value, a server
that echoes it back enriched with different default values for the stripped
keys, and the resulting round-trip equality, at a concrete configuration. -/
theorem c1_witness :
    ((resourceElasticsearchOpenDistroDetectorCreate
        ⟨.ok .v6, fun r => if r.method = .post
          then .ok (.obj [("_id", .str "Y"), ("_version", .num 1),
            ("detector", .obj [("n", .str "v")])])
          else if r.method = .put
          then .ok (.obj [("_id", .str "X"), ("_version", .num 2),
            ("detector", .obj [("n", .str "v")])])
          else if r.path = detectorItemPath "Y"
          then .ok (.obj [("_id", .str "Y"), ("_version", .num 3),
            ("detector", .obj [("boost", .num 2), ("n", .str "v")])])
          else .ok (.obj [("_id", .str "X"), ("_version", .num 4),
            ("detector", .obj [("boost", .num 3), ("n", .str "v")])])⟩
        ⟨"X", serialize (canonJson (.obj [("n", .str "v"), ("boost", .num 1)]))⟩).1 = none
      ∧ (resourceElasticsearchOpenDistroDetectorCreate
        ⟨.ok .v6, fun r => if r.method = .post
          then .ok (.obj [("_id", .str "Y"), ("_version", .num 1),
            ("detector", .obj [("n", .str "v")])])
          else if r.method = .put
          then .ok (.obj [("_id", .str "X"), ("_version", .num 2),
            ("detector", .obj [("n", .str "v")])])
          else if r.path = detectorItemPath "Y"
          then .ok (.obj [("_id", .str "Y"), ("_version", .num 3),
            ("detector", .obj [("boost", .num 2), ("n", .str "v")])])
          else .ok (.obj [("_id", .str "X"), ("_version", .num 4),
            ("detector", .obj [("boost", .num 3), ("n", .str "v")])])⟩
        ⟨"X", serialize (canonJson (.obj [("n", .str "v"), ("boost", .num 1)]))⟩).2.1.body
        = marshalNormalized (normalizeDetector (.obj [("n", .str "v"), ("boost", .num 1)])))
    ∧ ((resourceElasticsearchOpenDistroDetectorUpdate
        ⟨.ok .v6, fun r => if r.method = .post
          then .ok (.obj [("_id", .str "Y"), ("_version", .num 1),
            ("detector", .obj [("n", .str "v")])])
          else if r.method = .put
          then .ok (.obj [("_id", .str "X"), ("_version", .num 2),
            ("detector", .obj [("n", .str "v")])])
          else if r.path = detectorItemPath "Y"
          then .ok (.obj [("_id", .str "Y"), ("_version", .num 3),
            ("detector", .obj [("boost", .num 2), ("n", .str "v")])])
          else .ok (.obj [("_id", .str "X"), ("_version", .num 4),
            ("detector", .obj [("boost", .num 3), ("n", .str "v")])])⟩
        ⟨"X", serialize (canonJson (.obj [("n", .str "v"), ("boost", .num 1)]))⟩).1 = none
      ∧ (resourceElasticsearchOpenDistroDetectorUpdate
        ⟨.ok .v6, fun r => if r.method = .post
          then .ok (.obj [("_id", .str "Y"), ("_version", .num 1),
            ("detector", .obj [("n", .str "v")])])
          else if r.method = .put
          then .ok (.obj [("_id", .str "X"), ("_version", .num 2),
            ("detector", .obj [("n", .str "v")])])
          else if r.path = detectorItemPath "Y"
          then .ok (.obj [("_id", .str "Y"), ("_version", .num 3),
            ("detector", .obj [("boost", .num 2), ("n", .str "v")])])
          else .ok (.obj [("_id", .str "X"), ("_version", .num 4),
            ("detector", .obj [("boost", .num 3), ("n", .str "v")])])⟩
        ⟨"X", serialize (canonJson (.obj [("n", .str "v"), ("boost", .num 1)]))⟩).2.1.body
        = marshalNormalized (normalizeDetector (.obj [("n", .str "v"), ("boost", .num 1)]))) :=
  c1_create_update_read_roundtrip
    ⟨.ok .v6, fun r => if r.method = .post
      then .ok (.obj [("_id", .str "Y"), ("_version", .num 1),
        ("detector", .obj [("n", .str "v")])])
      else if r.method = .put
      then .ok (.obj [("_id", .str "X"), ("_version", .num 2),
        ("detector", .obj [("n", .str "v")])])
      else if r.path = detectorItemPath "Y"
      then .ok (.obj [("_id", .str "Y"), ("_version", .num 3),
        ("detector", .obj [("boost", .num 2), ("n", .str "v")])])
      else .ok (.obj [("_id", .str "X"), ("_version", .num 4),
        ("detector", .obj [("boost", .num 3), ("n", .str "v")])])⟩
    .v6
    ⟨"X", serialize (canonJson (.obj [("n", .str "v"), ("boost", .num 1)]))⟩
    (.obj [("n", .str "v"), ("boost", .num 1)])
    (.obj [("_id", .str "Y"), ("_version", .num 1), ("detector", .obj [("n", .str "v")])])
    (.obj [("_id", .str "Y"), ("_version", .num 3),
      ("detector", .obj [("boost", .num 2), ("n", .str "v")])])
    (.obj [("_id", .str "X"), ("_version", .num 2), ("detector", .obj [("n", .str "v")])])
    (.obj [("_id", .str "X"), ("_version", .num 4),
      ("detector", .obj [("boost", .num 3), ("n", .str "v")])])
    ⟨1, "Y", .obj [("n", .str "v")]⟩
    ⟨3, "Y", .obj [("boost", .num 2), ("n", .str "v")]⟩
    ⟨2, "X", .obj [("n", .str "v")]⟩
    ⟨4, "X", .obj [("boost", .num 3), ("n", .str "v")]⟩
    rfl (by decide) rfl rfl rfl rfl rfl rfl rfl rfl rfl rfl rfl
